import Mathlib

/-!
Verification development for the pension-product recommendation service
(`api/api_main.py`, Flask boundary) and its recommendation core.

The boundary (`api_main.py`) is embedded directly from the source.  The
core modules (`data_processor.PensionProductAnalyzer` and
`recommender.PensionProductRecommender`) are imported by the boundary but
their sources are not in the repository snapshot; where a definition is
needed from them it is modelled from the specification and marked
`Modelled from the spec:` in its doc comment.
-/

namespace Pension

/-- A JSON value as delivered by `request.get_json()` to the handler.
Numbers are modelled as rationals.  Booleans are kept distinct from
numbers (as in JSON); note that Python's `isinstance(x, (int, float))`
accepts booleans because `bool` is a subclass of `int`. -/
inductive JVal where
  | jnum  (q : ℚ)
  | jstr  (s : String)
  | jbool (b : Bool)
  | jnull
deriving DecidableEq, Repr

/-- Python `isinstance(x, (int, float))`: true for numbers and for
booleans (`bool` subclasses `int` in Python). -/
def JVal.isNumeric : JVal → Bool
  | .jnum _  => true
  | .jbool _ => true
  | _        => false

/-- Numeric value of a JSON value under Python arithmetic: a boolean is
`1`/`0`; non-numeric values never reach arithmetic in the validated code
paths and are mapped to `0`. -/
def JVal.toRat : JVal → ℚ
  | .jnum q  => q
  | .jbool b => if b then 1 else 0
  | _        => 0

/-- String content of a JSON value when it is a string (used for
string-valued profile fields inside the core); other shapes compare
unequal to every string, modelled as `""`. -/
def JVal.toStr : JVal → String
  | .jstr s => s
  | _       => ""

/-- Python `str(x)` of the raw JSON value, as interpolated into the
f-string that seeds the user-id hash.  Only equality of seeds matters in
the development, so the exact rendering of numbers is irrelevant. -/
def JVal.pyStr : JVal → String
  | .jnum q  => toString q
  | .jstr s  => s
  | .jbool b => if b then "True" else "False"
  | .jnull   => "None"

/-- The `filter_criteria` of the request body: exact-match predicates on
`insurance_type` and `risk_level` (spec §4.3 step 1). -/
structure FilterCriteria where
  insurance_type : Option String
  risk_level     : Option String
deriving DecidableEq, Repr

/-- The JSON object body of `POST /recommend` as read by
`recommend_products`.  Absent keys are `none`.  `top_n` is modelled as an
integer per the interface contract and `filter_criteria` as its
structured shape.  Non-object JSON bodies are outside the modelled
contract (the handler only treats objects and missing bodies). -/
structure RecommendRequest where
  age               : Option JVal
  annual_income     : Option JVal
  risk_tolerance    : Option JVal
  location          : Option JVal
  social_security   : Option JVal
  retirement_age    : Option JVal
  investment_amount : Option JVal
  top_n             : Option ℤ
  filter_criteria   : Option FilterCriteria
  family_status     : Option JVal
  health_status     : Option JVal
  liquidity_needs   : Option JVal
deriving DecidableEq, Repr

/-- Python `if not data:` is taken on an empty dict `{}` as well as on a
missing body; an all-absent request object is the empty dict. -/
def RecommendRequest.isEmpty (r : RecommendRequest) : Bool :=
  r.age.isNone && r.annual_income.isNone && r.risk_tolerance.isNone &&
  r.location.isNone && r.social_security.isNone && r.retirement_age.isNone &&
  r.investment_amount.isNone && r.top_n.isNone && r.filter_criteria.isNone &&
  r.family_status.isNone && r.health_status.isNone && r.liquidity_needs.isNone

/-- The list `valid_risk_levels = ['低', '中低', '中', '中高', '高']` in
`recommend_products`. -/
def validRiskLevels : List String := ["低", "中低", "中", "中高", "高"]

/-- The check `risk_tolerance not in valid_risk_levels` succeeds exactly
on a string among the five levels; any non-string raw value fails the
membership test. -/
def riskOf : JVal → Option String
  | .jstr s => if s ∈ validRiskLevels then some s else none
  | _       => none

/-- The normalized user profile dict built by `recommend_products`
(lines 192–209).  `social_security_type`, `expected_retirement_age`,
`investment_amount` and `location` hold the raw submitted JSON values
(the handler does not validate them), with `data.get` defaults. -/
structure UserProfile where
  age                     : ℤ
  annual_income           : ℚ
  risk_tolerance          : String
  social_security_type    : JVal
  expected_retirement_age : JVal
  investment_amount       : JVal
  location                : JVal
  family_status           : Option JVal
  health_status           : Option JVal
  liquidity_needs         : Option JVal
deriving DecidableEq, Repr

/-- Profile construction from the validated raw values (lines 192–209 of
`api_main.py`).  `int(age)` truncates toward zero; validation has ensured
`0 ≤ age`, where truncation coincides with `Rat.floor`. -/
def buildProfile (a inc : JVal) (rs : String) (req : RecommendRequest) : UserProfile :=
  { age                     := a.toRat.floor
    annual_income           := inc.toRat
    risk_tolerance          := rs
    social_security_type    := req.social_security.getD (.jstr "城镇职工")
    expected_retirement_age := req.retirement_age.getD (.jnum 60)
    investment_amount       := req.investment_amount.getD (.jnum (inc.toRat * (1/2)))
    location                := req.location.getD (.jstr "全国")
    family_status           := req.family_status
    health_status           := req.health_status
    liquidity_needs         := req.liquidity_needs }

/-- The Profile Registry: Python dict from user-id strings to profiles,
in insertion order. -/
abbrev Registry := List (String × UserProfile)

/-- Python dict assignment `registry[k] = p`: update the existing entry
in place if the key is present, else append. -/
def registryAdd : Registry → String → UserProfile → Registry
  | [], k, p => [(k, p)]
  | (k', p') :: rest, k, p =>
      if k' = k then (k, p) :: rest else (k', p') :: registryAdd rest k p

/-- Dict lookup. -/
def registryFind : Registry → String → Option UserProfile
  | [], _ => none
  | (k', p) :: rest, k => if k' = k then some p else registryFind rest k

/-- Dict key membership. -/
def registryHasKey : Registry → String → Bool
  | [], _ => false
  | (k', _) :: rest, k => k' = k || registryHasKey rest k

/-- The string hashed (via md5, truncated to 12 hex digits) to produce
the user id:
`f"{datetime.now().isoformat()}{age}{income}{risk_tolerance}"` with the
raw request values (line 213 of `api_main.py`). -/
def userIdSeed (ts : String) (a inc rt : JVal) : String :=
  ts ++ a.pyStr ++ inc.pyStr ++ rt.pyStr

/-- A normalized catalog entry (spec §3 Product).  `age_range` is the
inclusive interval `[min_age, max_age]`. -/
structure Product where
  product_id        : String
  product_name      : String
  insurance_company : String
  min_age           : ℤ
  max_age           : ℤ
  insurance_type    : String
  payment_type      : String
  min_premium       : ℚ
  risk_level        : String
  coverage          : String
  feature_keywords  : List String
  sales_channel     : String
  sales_scope       : String
deriving DecidableEq, Repr

/-- A raw catalog row before normalization; optional columns may be
missing (spec §4.1: they are filled with catalog-wide defaults, not
dropped). -/
structure RawProduct where
  product_id        : String
  product_name      : String
  insurance_company : String
  min_age           : ℤ
  max_age           : ℤ
  insurance_type    : Option String
  payment_type      : Option String
  min_premium       : Option ℚ
  risk_level        : Option String
  coverage          : Option String
  feature_keywords  : List String
  sales_channel     : Option String
  sales_scope       : Option String
deriving DecidableEq, Repr

/-- Modelled from the spec: `data_processor` normalization (§4.1
`normalize()`): coerce to the §3 types and fill missing optional fields
with catalog-wide defaults (the boundary uses "未知" for unknown
channel/scope, lines 256–257 of `api_main.py`). -/
def normalizeRaw (r : RawProduct) : Product :=
  { product_id        := r.product_id
    product_name      := r.product_name
    insurance_company := r.insurance_company
    min_age           := r.min_age
    max_age           := r.max_age
    insurance_type    := r.insurance_type.getD "养老年金"
    payment_type      := r.payment_type.getD "期缴"
    min_premium       := r.min_premium.getD 0
    risk_level        := r.risk_level.getD "中"
    coverage          := r.coverage.getD ""
    feature_keywords  := r.feature_keywords
    sales_channel     := r.sales_channel.getD "未知"
    sales_scope       := r.sales_scope.getD "全国" }

/-- First demonstration row. -/
def rawP1 : RawProduct :=
  { product_id := "P001", product_name := "平安养老年金保险",
    insurance_company := "平安人寿", min_age := 18, max_age := 65,
    insurance_type := some "养老年金", payment_type := some "期缴",
    min_premium := some 1, risk_level := some "中",
    coverage := some "养老年金给付", feature_keywords := ["养老", "年金"],
    sales_channel := some "银行代理", sales_scope := some "全国" }

/-- Second demonstration row. -/
def rawP2 : RawProduct :=
  { product_id := "P002", product_name := "国寿福寿年年养老保险",
    insurance_company := "中国人寿", min_age := 30, max_age := 70,
    insurance_type := some "养老年金", payment_type := some "趸缴",
    min_premium := some 5, risk_level := some "低",
    coverage := some "身故保障与养老金", feature_keywords := ["养老", "稳健"],
    sales_channel := none, sales_scope := some "北京" }

/-- Third demonstration row. -/
def rawP3 : RawProduct :=
  { product_id := "P003", product_name := "太平盛世长乐终身寿险",
    insurance_company := "太平人寿", min_age := 50, max_age := 75,
    insurance_type := some "终身寿险", payment_type := some "期缴",
    min_premium := some 10, risk_level := some "中高",
    coverage := some "终身身故保障", feature_keywords := ["终身", "传承"],
    sales_channel := some "个险渠道", sales_scope := none }

/-- Modelled from the spec: the small fixed demonstration catalog that
`analyzer.create_demo_data()` generates when no data source loads
(§4.1, §7 "Catalog unavailable"). -/
def demo_data : List RawProduct := [rawP1, rawP2, rawP3]

/-- The data-processor state: `analyzer.df` (raw rows, `None` when no
source loaded) and `analyzer.processed_df` (normalized rows). -/
structure Analyzer where
  df           : Option (List RawProduct)
  processed_df : Option (List Product)
deriving DecidableEq, Repr

/-- Modelled from the spec: `PensionProductAnalyzer()` — the constructor
attempts to load the tabular source; `df` is the load result (`none` on
total failure) and `processed_df` starts unset. -/
def mkAnalyzer (load : Option (List RawProduct)) : Analyzer :=
  { df := load, processed_df := none }

/-- Modelled from the spec: `analyzer.create_demo_data()` replaces `df`
with the fixed demonstration catalog. -/
def create_demo_data (a : Analyzer) : Analyzer :=
  { a with df := some demo_data }

/-- Modelled from the spec: `analyzer.process_data()` normalizes every
raw row into `processed_df` (§4.1: rows are filled, never dropped). -/
def process_data (a : Analyzer) : Analyzer :=
  { a with processed_df := some ((a.df.getD []).map normalizeRaw) }

/-- Function `initialize_system` of `api_main.py` (lines 28–49): construct the
analyzer, fall back to demo data when `df is None`, process when
`processed_df is None`. -/
def initialize_system (load : Option (List RawProduct)) : Analyzer :=
  let a := mkAnalyzer load
  let a := if a.df.isNone then create_demo_data a else a
  let a := if a.processed_df.isNone then process_data a else a
  a

/-- The processed demonstration catalog, as held after a fallback
initialization. -/
def demoCatalog : List Product := demo_data.map normalizeRaw

/-- Position of a risk level in the ordered five-level domain. -/
def riskIndex : String → Option ℕ
  | "低"   => some 0
  | "中低" => some 1
  | "中"   => some 2
  | "中高" => some 3
  | "高"   => some 4
  | _      => none

/-- Modelled from the spec: risk-alignment factor (§4.2 factor 2,
weight 25): full credit at distance 0, reduced at distance 1, minimal at
distance 2+; zero when either level is outside the domain. -/
def riskAlignmentScore (userRisk prodRisk : String) : ℚ :=
  match riskIndex userRisk, riskIndex prodRisk with
  | some u, some p =>
      let d := max u p - min u p
      if d = 0 then 25 else if d = 1 then 15 else 5
  | _, _ => 0

/-- Modelled from the spec: affordability factor (§4.2 factor 3,
weight 25): full credit if `investment_amount ≥ min_premium`, otherwise
credit proportional to `investment_amount / min_premium`, floored at
zero. -/
def affordabilityScore (investment minPremium : ℚ) : ℚ :=
  if minPremium ≤ investment then 25
  else max 0 (25 * investment / minPremium)

/-- Modelled from the spec: geographic fit factor (§4.2 factor 4,
weight 15): full credit when the sales scope is nationwide or covers the
profile location, zero otherwise. -/
def geoScore (location scope : String) : ℚ :=
  if scope = "全国" ∨ scope = location then 15 else 0

/-- Modelled from the spec: retirement-horizon factor (§4.2 factor 5,
weight 10): a soft heuristic that never errors — full credit for a
horizon compatible with an annuity-style product, partial credit
otherwise; gracefully partial when the submitted value is not numeric. -/
def horizonScore (retirementAge : JVal) (paymentType : String) : ℚ :=
  if retirementAge.isNumeric && (55 ≤ retirementAge.toRat || paymentType = "趸缴") then 10
  else 5

/-- Round half-up to the nearest integer (spec §4.2: total score rounded
to the nearest integer for display). -/
def ratRound (q : ℚ) : ℤ := (q + 1/2).floor

/-- Clamp to `[0,100]` and round (spec §4.2). -/
def clampRound (q : ℚ) : ℕ := (min 100 (max 0 (ratRound q))).toNat

/-- Modelled from the spec: the Scoring Engine (§4.2).  Age eligibility
is a gate: a product whose `age_range` does not contain the profile age
is excluded (`none`), not scored.  Otherwise the weighted factors
(age 25 + risk 25 + affordability 25 + geography 15 + horizon 10) are
summed, clamped to `[0,100]` and rounded; reason strings are emitted in
weight-descending factor order for factors above the visibility
threshold. -/
def scoreProduct (u : UserProfile) (p : Product) : Option (ℕ × List String) :=
  if u.age < p.min_age ∨ p.max_age < u.age then none
  else
    let riskPts := riskAlignmentScore u.risk_tolerance p.risk_level
    let affordPts := affordabilityScore u.investment_amount.toRat p.min_premium
    let geoPts := geoScore u.location.toStr p.sales_scope
    let horizonPts := horizonScore u.expected_retirement_age p.payment_type
    let total := clampRound (25 + riskPts + affordPts + geoPts + horizonPts)
    let reasons :=
      ["年龄符合产品投保范围"] ++
      (if 15 ≤ riskPts then ["风险等级与您的偏好匹配"] else []) ++
      (if 15 ≤ affordPts then ["保费在您的预算范围内"] else []) ++
      (if 0 < geoPts then ["销售区域覆盖您所在地区"] else []) ++
      (if 10 ≤ horizonPts then ["退休规划期限适配"] else [])
    some (total, reasons)

/-- One scored catalog entry (spec §3 MatchResult joined with its
Product). -/
structure ScoredProduct where
  product : Product
  score   : ℕ
  reasons : List String
deriving DecidableEq, Repr

/-- Modelled from the spec: `filter_criteria` application (§4.3 step 1):
exact-match predicates applied before scoring. -/
def matchesFilter (fc : Option FilterCriteria) (p : Product) : Bool :=
  match fc with
  | none => true
  | some c =>
      (match c.insurance_type with
       | none => true
       | some t => p.insurance_type = t) &&
      (match c.risk_level with
       | none => true
       | some r => p.risk_level = r)

/-- Ranking order (§4.3 step 3): descending `match_score`, ties broken
by ascending `min_premium`. -/
def rankBefore (a b : ScoredProduct) : Bool :=
  b.score < a.score || (a.score = b.score && a.product.min_premium ≤ b.product.min_premium)

/-- Stable insertion for the ranking sort. -/
def insertRanked (x : ScoredProduct) : List ScoredProduct → List ScoredProduct
  | [] => [x]
  | y :: ys => if rankBefore x y then x :: y :: ys else y :: insertRanked x ys

/-- Stable insertion sort by `rankBefore` (§4.3 step 3). -/
def rankSort : List ScoredProduct → List ScoredProduct
  | [] => []
  | x :: xs => insertRanked x (rankSort xs)

/-- Products surviving filter and the age gate, scored (§4.3 step 2). -/
def scoredProducts (catalog : List Product) (u : UserProfile) (fc : Option FilterCriteria) :
    List ScoredProduct :=
  (catalog.filter (matchesFilter fc)).filterMap
    (fun p => (scoreProduct u p).map (fun r => ⟨p, r.1, r.2⟩))

/-- The recommender's result shape (spec §3 RecommendationSet). -/
structure RecommendationSet where
  recommendations          : List ScoredProduct
  total_products_evaluated : ℕ
deriving DecidableEq, Repr

/-- Modelled from the spec:
`recommender.get_recommendations(user_id, top_n, filter_criteria)`
(§4.3): reject negative `top_n` as invalid input signaled to the caller;
filter, score (dropping gate-excluded products), rank, truncate to
`top_n`, and report `total_products_evaluated`. -/
def get_recommendations (catalog : List Product) (u : UserProfile) (top_n : ℤ)
    (fc : Option FilterCriteria) : Except String RecommendationSet :=
  if top_n < 0 then .error "top_n 不能为负数"
  else
    let scored := scoredProducts catalog u fc
    .ok ⟨(rankSort scored).take top_n.toNat, scored.length⟩

/-- One formatted recommendation item of the `/recommend` response
(lines 242–258 of `api_main.py`). -/
structure FormattedRec where
  product_id             : String
  product_name           : String
  insurance_company      : String
  match_score            : ℕ
  match_percentage       : String
  age_range              : ℤ × ℤ
  insurance_type         : String
  payment_type           : String
  min_premium            : ℚ
  risk_level             : String
  coverage               : String
  recommendation_reasons : List String
  key_features           : List String
  sales_channel          : String
  sales_scope            : String
deriving DecidableEq, Repr

/-- Formatting of one recommendation (lines 242–258):
`match_percentage` is `f"{rec.get('match_score')}%"`. -/
def formatRec (sp : ScoredProduct) : FormattedRec :=
  { product_id             := sp.product.product_id
    product_name           := sp.product.product_name
    insurance_company      := sp.product.insurance_company
    match_score            := sp.score
    match_percentage       := toString sp.score ++ "%"
    age_range              := (sp.product.min_age, sp.product.max_age)
    insurance_type         := sp.product.insurance_type
    payment_type           := sp.product.payment_type
    min_premium            := sp.product.min_premium
    risk_level             := sp.product.risk_level
    coverage               := sp.product.coverage
    recommendation_reasons := sp.reasons
    key_features           := sp.product.feature_keywords
    sales_channel          := sp.product.sales_channel
    sales_scope            := sp.product.sales_scope }

/-- The success body of `/recommend` (lines 230–259).  The advice block
is not claim-relevant and is omitted from the embedding. -/
structure RecommendBody where
  user_profile             : UserProfile
  total_products_evaluated : ℕ
  recommendation_count     : ℕ
  recommendations          : List FormattedRec
deriving DecidableEq, Repr

/-- Success-body construction (lines 230–259):
`recommendation_count = len(recommendations)` of the raw list, and every
raw recommendation is formatted and appended. -/
def mkBody (profile : UserProfile) (rs : RecommendationSet) : RecommendBody :=
  { user_profile             := profile
    total_products_evaluated := rs.total_products_evaluated
    recommendation_count     := rs.recommendations.length
    recommendations          := rs.recommendations.map formatRec }

/-- Response of `/recommend`: `clientError` is a 400 with
`success=false`, `serverError` the 500 of the `except` block (also
`success=false`), `ok` the 200 success body. -/
inductive RecommendResponse where
  | clientError (msg : String)
  | serverError (msg : String)
  | ok (body : RecommendBody)
deriving DecidableEq, Repr

/-- Whether a response is the 400 client error. -/
def RecommendResponse.isClientError : RecommendResponse → Bool
  | .clientError _ => true
  | _              => false

/-- The success body, when the response is a success. -/
def RecommendResponse.okBody : RecommendResponse → Option RecommendBody
  | .ok b => some b
  | _     => none

/-- The validated path of `recommend_products` (lines 192–269): build
the profile, store it in the registry under the md5-derived key, call
the recommender, and format the response.  A recommender failure is
caught by the surrounding `except` (500) after the registry was already
mutated. -/
def recommendValid (md5t : String → String) (ts : String) (catalog : List Product)
    (registry : Registry) (req : RecommendRequest) (a inc rt : JVal) (rs : String) :
    RecommendResponse × Registry :=
  let profile := buildProfile a inc rs req
  let uid := md5t (userIdSeed ts a inc rt)
  let registry1 := registryAdd registry uid profile
  match get_recommendations catalog profile (req.top_n.getD 5) req.filter_criteria with
  | .error e => (.serverError e, registry1)
  | .ok recSet => (.ok (mkBody profile recSet), registry1)

/-- Handler `recommend_products` of `api_main.py` (lines 124–277).  `md5t` is
the external hash `lambda s: hashlib.md5(s.encode()).hexdigest()[:12]`,
passed as a parameter since `hashlib` is a library; `ts` is the request
timestamp `datetime.now().isoformat()`.  The pair returned is the HTTP
response together with the registry state after the request. -/
def recommendHandler (md5t : String → String) (ts : String) (catalog : List Product)
    (registry : Registry) (data : Option RecommendRequest) :
    RecommendResponse × Registry :=
  match data with
  | none => (.clientError "请求体必须为JSON格式", registry)
  | some req =>
    if req.isEmpty then (.clientError "请求体必须为JSON格式", registry)
    else
      match req.age, req.annual_income, req.risk_tolerance with
      | some a, some inc, some rt =>
          if a.isNumeric = false ∨ a.toRat < 0 ∨ 120 < a.toRat then
            (.clientError "年龄必须在0-120岁之间", registry)
          else if inc.isNumeric = false ∨ inc.toRat < 0 then
            (.clientError "年收入必须为非负数", registry)
          else
            match riskOf rt with
            | none => (.clientError "风险偏好必须是: 低, 中低, 中, 中高, 高", registry)
            | some rs => recommendValid md5t ts catalog registry req a inc rt rs
      | _, _, _ => (.clientError "缺少必需字段", registry)

/-- Response of `GET /product/{id}` (lines 280–302). -/
inductive ProductResponse where
  | ok (p : Product)
  | notFound (msg : String)
  | err (msg : String)
deriving DecidableEq, Repr

/-- Modelled from the spec: `analyzer.get_product_details(product_id)`
(§4.1 `get`): exact lookup returning a not-found signal (no record)
when absent. -/
def get_product_details (catalog : List Product) (pid : String) : Option Product :=
  catalog.find? (fun p => p.product_id = pid)

/-- Handler `get_product_detail` of `api_main.py` (lines 280–302): 200 with the
product when found, 404 with `success=false` otherwise. -/
def productDetailHandler (catalog : List Product) (pid : String) : ProductResponse :=
  match get_product_details catalog pid with
  | some p => .ok p
  | none   => .notFound ("未找到产品ID: " ++ pid)

/-- Does `needle` occur at the head of `hay`? -/
def beginsWith : List Char → List Char → Bool
  | [], _ => true
  | _ :: _, [] => false
  | a :: as, b :: bs => a = b && beginsWith as bs

/-- Substring occurrence on character lists. -/
def hasSub (needle : List Char) : List Char → Bool
  | [] => needle.isEmpty
  | c :: rest => beginsWith needle (c :: rest) || hasSub needle rest

/-- ASCII lower-casing of one character (Python `str.lower` restricted
to the ASCII range, which is all the catalog data exercises). -/
def lowerChar (c : Char) : Char :=
  if 'A' ≤ c ∧ c ≤ 'Z' then Char.ofNat (c.toNat + 32) else c

/-- Case-insensitive substring containment. -/
def containsCI (hay needle : String) : Bool :=
  hasSub (needle.data.map lowerChar) (hay.data.map lowerChar)

/-- Modelled from the spec: `analyzer.search_products(keyword)` (§4.1
`search`): case-insensitive substring match against `product_name`,
`insurance_company` and `feature_keywords`, in catalog order, no
scoring. -/
def search_products (catalog : List Product) (keyword : String) : List Product :=
  catalog.filter (fun p =>
    containsCI p.product_name keyword ||
    containsCI p.insurance_company keyword ||
    p.feature_keywords.any (fun k => containsCI k keyword))

/-- Semantics of `pandas.DataFrame.head(n)` as called on the search results
(line 322 of `api_main.py`): the first `n` rows for `n ≥ 0`; for
negative `n`, all rows except the last `|n|`. -/
def pdHead {α : Type} (l : List α) (n : ℤ) : List α :=
  if 0 ≤ n then l.take n.toNat else l.take (l.length - (-n).toNat)

/-- Response of `GET /search` (lines 305–334). -/
inductive SearchResponse where
  | ok (keyword : String) (count : ℕ) (results : List Product)
  | badRequest (msg : String)
  | err (msg : String)
deriving DecidableEq, Repr

/-- Route `search_products` of `api_main.py` (lines 305–334): the
`keyword` query parameter defaults to `''` when absent and an empty
keyword is rejected with a 400; `limit` defaults to 10; the result list
is `analyzer.search_products(keyword).head(limit)` and `count` its
length.  (A non-integer `limit` string would raise in `int()` and
surface as a 500; it is outside the modelled inputs.) -/
def searchHandler (catalog : List Product) (keyword : Option String) (limit : Option ℤ) :
    SearchResponse :=
  let kw := keyword.getD ""
  let lim := limit.getD 10
  if kw = "" then .badRequest "请提供搜索关键词"
  else
    let results := pdHead (search_products catalog kw) lim
    .ok kw results.length results

/-! ### Helper lemmas -/

theorem registryFind_add (reg : Registry) (k : String) (p : UserProfile) :
    registryFind (registryAdd reg k p) k = some p := by
  induction reg with
  | nil => simp [registryAdd, registryFind]
  | cons kv rest ih =>
      obtain ⟨k', p'⟩ := kv
      by_cases hk : k' = k <;> simp [registryAdd, registryFind, hk, ih]

theorem registryHasKey_add_self (reg : Registry) (k : String) (p : UserProfile) :
    registryHasKey (registryAdd reg k p) k = true := by
  induction reg with
  | nil => simp [registryAdd, registryHasKey]
  | cons kv rest ih =>
      obtain ⟨k', p'⟩ := kv
      by_cases hk : k' = k <;> simp [registryAdd, registryHasKey, hk, ih]

theorem length_registryAdd_of_hasKey (reg : Registry) (k : String) (p : UserProfile)
    (h : registryHasKey reg k = true) :
    (registryAdd reg k p).length = reg.length := by
  induction reg with
  | nil => simp [registryHasKey] at h
  | cons kv rest ih =>
      obtain ⟨k', p'⟩ := kv
      by_cases hk : k' = k
      · simp [registryAdd, hk]
      · simp [registryHasKey, hk] at h
        simp [registryAdd, hk, ih h]

theorem mem_insertRanked {a x : ScoredProduct} {l : List ScoredProduct} :
    a ∈ insertRanked x l ↔ a = x ∨ a ∈ l := by
  induction l with
  | nil => simp [insertRanked]
  | cons y ys ih =>
      by_cases hb : rankBefore x y = true
      · simp [insertRanked, hb]
      · simp [insertRanked, hb, ih]
        tauto

theorem mem_rankSort {a : ScoredProduct} {l : List ScoredProduct} :
    a ∈ rankSort l ↔ a ∈ l := by
  induction l with
  | nil => simp [rankSort]
  | cons x xs ih => simp [rankSort, mem_insertRanked, ih]

theorem getRecs_ok {catalog : List Product} {u : UserProfile} {t : ℤ}
    {fc : Option FilterCriteria} {rs : RecommendationSet}
    (h : get_recommendations catalog u t fc = .ok rs) :
    0 ≤ t ∧
    rs.recommendations = (rankSort (scoredProducts catalog u fc)).take t.toNat ∧
    rs.total_products_evaluated = (scoredProducts catalog u fc).length := by
  unfold get_recommendations at h
  split at h
  · exact absurd h (by simp)
  · next hneg =>
      refine ⟨by omega, ?_, ?_⟩ <;> cases h <;> rfl

theorem scoredProducts_product_mem {catalog : List Product} {u : UserProfile}
    {fc : Option FilterCriteria} {sp : ScoredProduct}
    (h : sp ∈ scoredProducts catalog u fc) :
    sp.product ∈ catalog ∧ scoreProduct u sp.product = some (sp.score, sp.reasons) := by
  unfold scoredProducts at h
  rw [List.mem_filterMap] at h
  obtain ⟨p, hp, hmap⟩ := h
  rw [Option.map_eq_some'] at hmap
  obtain ⟨r, hr, hb⟩ := hmap
  subst hb
  exact ⟨(List.mem_filter.mp hp).1, by simpa using hr⟩

/-- Inversion of a successful `/recommend` run: validation passed, the
profile was built from the raw values, stored under the md5-derived key,
and the body was formatted from the recommender's output. -/
theorem recommendHandler_ok_inv {md5t : String → String} {ts : String}
    {catalog : List Product} {registry : Registry} {req : RecommendRequest}
    {body : RecommendBody} {reg' : Registry}
    (h : recommendHandler md5t ts catalog registry (some req) = (.ok body, reg')) :
    ∃ a inc rt rs recSet,
      req.age = some a ∧ req.annual_income = some inc ∧ req.risk_tolerance = some rt ∧
      riskOf rt = some rs ∧ a.isNumeric = true ∧ 0 ≤ a.toRat ∧ a.toRat ≤ 120 ∧
      inc.isNumeric = true ∧ 0 ≤ inc.toRat ∧
      get_recommendations catalog (buildProfile a inc rs req) (req.top_n.getD 5)
        req.filter_criteria = .ok recSet ∧
      body = mkBody (buildProfile a inc rs req) recSet ∧
      reg' = registryAdd registry (md5t (userIdSeed ts a inc rt)) (buildProfile a inc rs req) := by
  simp only [recommendHandler] at h
  split at h
  · simp at h
  · cases hA : req.age with
    | none => rw [hA] at h; simp at h
    | some a =>
      cases hI : req.annual_income with
      | none => rw [hA, hI] at h; simp at h
      | some inc =>
        cases hR : req.risk_tolerance with
        | none => rw [hA, hI, hR] at h; simp at h
        | some rt =>
          rw [hA, hI, hR] at h
          simp only [] at h
          split at h
          · simp at h
          · split at h
            · simp at h
            · next hAgeOk hIncOk =>
              cases hrs : riskOf rt with
              | none => rw [hrs] at h; simp at h
              | some rs =>
                rw [hrs] at h
                unfold recommendValid at h
                simp only [] at h
                split at h
                · simp at h
                · next recSet hrec =>
                  simp only [Prod.mk.injEq, RecommendResponse.ok.injEq] at h
                  rw [not_or, not_or, not_lt, not_lt] at hAgeOk
                  rw [not_or, not_lt] at hIncOk
                  exact ⟨a, inc, rt, rs, recSet, rfl, rfl, rfl, hrs,
                    eq_true_of_ne_false hAgeOk.1, hAgeOk.2.1, hAgeOk.2.2,
                    eq_true_of_ne_false hIncOk.1, hIncOk.2,
                    hrec, h.1.symm, h.2.symm⟩

/-! ### Concrete fixtures

Requests, profiles and expected outputs used by the concrete
instantiations below.  `mdStandIn` stands in for the external
`lambda s: hashlib.md5(s.encode()).hexdigest()[:12]`; every general
theorem quantifies over an arbitrary hash function, and the concrete
runs that depend on key collision feed it *identical* seed strings, so
their outcome is the same for any hash function, the real md5
included. -/

/-- Truncating stand-in for the external md5-based key derivation. -/
def mdStandIn : String → String := fun s => s.take 12

/-- A request carrying only the three required fields. -/
def reqMin : RecommendRequest :=
  { age := some (.jnum 35), annual_income := some (.jnum 25),
    risk_tolerance := some (.jstr "中"), location := none, social_security := none,
    retirement_age := none, investment_amount := none, top_n := none,
    filter_criteria := none, family_status := none, health_status := none,
    liquidity_needs := none }

/-- Request `{"age": true, ...}`: a JSON boolean in the `age` field. -/
def reqBoolAge : RecommendRequest := { reqMin with age := some (.jbool true) }

/-- Request `reqMin` with `top_n = 0`. -/
def reqTop0 : RecommendRequest := { reqMin with top_n := some 0 }

/-- Request `reqMin` with a missing `age` field. -/
def reqMissing : RecommendRequest := { reqMin with age := none }

/-- The §8 scenario profile request. -/
def reqFull : RecommendRequest :=
  { reqMin with
    location := some (.jstr "北京"),
    social_security := some (.jstr "城镇职工"),
    retirement_age := some (.jnum 60),
    investment_amount := some (.jnum 12),
    top_n := some 5 }

/-- Request `reqMin` with fractional age 35.9. -/
def reqFrac : RecommendRequest := { reqMin with age := some (.jnum (359/10)) }

/-- Same required fields as `reqMin`, location 北京. -/
def reqLocBJ : RecommendRequest := { reqMin with location := some (.jstr "北京") }

/-- Same required fields as `reqMin`, location 上海. -/
def reqLocSH : RecommendRequest := { reqMin with location := some (.jstr "上海") }

/-- Profile normalized from `reqMin` (all defaults applied). -/
def profileMin : UserProfile := buildProfile (.jnum 35) (.jnum 25) "中" reqMin

/-- Profile normalized from `reqLocBJ`. -/
def profileBJ : UserProfile := buildProfile (.jnum 35) (.jnum 25) "中" reqLocBJ

/-- Profile normalized from `reqLocSH`. -/
def profileSH : UserProfile := buildProfile (.jnum 35) (.jnum 25) "中" reqLocSH

/-- Profile normalized from `reqFull`, written out. -/
def profileFull : UserProfile :=
  { age := 35, annual_income := 25, risk_tolerance := "中",
    social_security_type := .jstr "城镇职工", expected_retirement_age := .jnum 60,
    investment_amount := .jnum 12, location := .jstr "北京",
    family_status := none, health_status := none, liquidity_needs := none }

/-- Profile normalized from `reqFrac`. -/
def profileFrac : UserProfile := buildProfile (.jnum (359/10)) (.jnum 25) "中" reqFrac

/-- P001 as scored for `profileFull` (all five factors at full credit). -/
def spP1 : ScoredProduct :=
  ⟨normalizeRaw rawP1, 100,
    ["年龄符合产品投保范围", "风险等级与您的偏好匹配", "保费在您的预算范围内",
     "销售区域覆盖您所在地区", "退休规划期限适配"]⟩

/-- P002 as scored for `profileFull` (risk distance 2, other factors at
full credit). -/
def spP2 : ScoredProduct :=
  ⟨normalizeRaw rawP2, 80,
    ["年龄符合产品投保范围", "保费在您的预算范围内",
     "销售区域覆盖您所在地区", "退休规划期限适配"]⟩

/-- Success body of the `reqFull` run against the demonstration
catalog. -/
def bodyFull : RecommendBody := mkBody profileFull ⟨[spP1, spP2], 2⟩

/-- Success body of the `reqTop0` run against the empty catalog. -/
def bodyTop0 : RecommendBody := mkBody profileMin ⟨[], 0⟩

/-- Success body of the `reqMin` run against the empty catalog. -/
def bodyMin : RecommendBody := mkBody profileMin ⟨[], 0⟩

/-- Success body of the `reqFrac` run against the empty catalog. -/
def bodyFrac : RecommendBody := mkBody profileFrac ⟨[], 0⟩

/-- Success body of the `reqLocBJ` run against the empty catalog. -/
def bodyBJ : RecommendBody := mkBody profileBJ ⟨[], 0⟩

/-- Success body of the `reqLocSH` run against the empty catalog. -/
def bodySH : RecommendBody := mkBody profileSH ⟨[], 0⟩

/-- The key both `reqLocBJ` and `reqLocSH` hash to at one timestamp. -/
def keyC9 : String := mdStandIn (userIdSeed "ts1" (.jnum 35) (.jnum 25) (.jstr "中"))

/-- Registry after the `reqLocBJ` submission. -/
def reg1C9 : Registry := [(keyC9, profileBJ)]

/-- Registry after the subsequent `reqLocSH` submission. -/
def reg2C9 : Registry := [(keyC9, profileSH)]

/-- Normalizing the §8 scenario values yields `profileFull`. -/
theorem buildProfile_reqFull :
    buildProfile (.jnum 35) (.jnum 25) "中" reqFull = profileFull := by
  with_unfolding_all rfl

/-- P001 scores 100 for the §8 scenario profile. -/
theorem scoreProduct_full_p1 :
    scoreProduct profileFull (normalizeRaw rawP1) = some (100, spP1.reasons) := by
  have hrisk : riskAlignmentScore "中" "中" = 25 := by decide
  have hafford : affordabilityScore (JVal.toRat (.jnum 12)) 1 = 25 := by
    unfold affordabilityScore
    rw [if_pos (by norm_num [JVal.toRat])]
  have hgeo : geoScore (JVal.toStr (.jstr "北京")) "全国" = 15 := by
    simp [geoScore, JVal.toStr]
  have hhor : horizonScore (.jnum 60) "期缴" = 10 := by
    unfold horizonScore
    rw [if_pos (by norm_num [JVal.isNumeric, JVal.toRat])]
  have hclamp : clampRound (25 + 25 + 25 + 15 + 10) = 100 := by with_unfolding_all rfl
  have e1 : ((15:ℚ) ≤ 25) = True := eq_true (by norm_num)
  have e2 : ((0:ℚ) < 15) = True := eq_true (by norm_num)
  have e3 : ((10:ℚ) ≤ 10) = True := eq_true (by norm_num)
  simp only [scoreProduct, profileFull, normalizeRaw, rawP1, Option.getD_some]
  rw [if_neg (by decide)]
  simp only [hrisk, hafford, hgeo, hhor, hclamp, e1, e2, e3, if_true]
  simp [spP1]

/-- P002 scores 80 for the §8 scenario profile (risk distance 2). -/
theorem scoreProduct_full_p2 :
    scoreProduct profileFull (normalizeRaw rawP2) = some (80, spP2.reasons) := by
  have hrisk : riskAlignmentScore "中" "低" = 5 := by decide
  have hafford : affordabilityScore (JVal.toRat (.jnum 12)) 5 = 25 := by
    unfold affordabilityScore
    rw [if_pos (by norm_num [JVal.toRat])]
  have hgeo : geoScore (JVal.toStr (.jstr "北京")) "北京" = 15 := by
    simp [geoScore, JVal.toStr]
  have hhor : horizonScore (.jnum 60) "趸缴" = 10 := by
    unfold horizonScore
    rw [if_pos (by norm_num [JVal.isNumeric, JVal.toRat])]
  have hclamp : clampRound (25 + 5 + 25 + 15 + 10) = 80 := by with_unfolding_all rfl
  have e1 : ((15:ℚ) ≤ 5) = False := eq_false (by norm_num)
  have e2 : ((15:ℚ) ≤ 25) = True := eq_true (by norm_num)
  have e3 : ((0:ℚ) < 15) = True := eq_true (by norm_num)
  have e4 : ((10:ℚ) ≤ 10) = True := eq_true (by norm_num)
  simp only [scoreProduct, profileFull, normalizeRaw, rawP2, Option.getD_some]
  rw [if_neg (by decide)]
  simp only [hrisk, hafford, hgeo, hhor, hclamp, e1, e2, e3, e4, if_true, if_false]
  simp [spP2]

/-- P003 (ages 50–75) is gate-excluded for the §8 scenario profile
(age 35). -/
theorem scoreProduct_full_p3 :
    scoreProduct profileFull (normalizeRaw rawP3) = none := by
  simp only [scoreProduct, profileFull, normalizeRaw, rawP3]
  rw [if_pos (Or.inl (by decide))]

/-- The scored demonstration catalog for the §8 scenario profile. -/
theorem scoredProducts_full_demo :
    scoredProducts demoCatalog profileFull none = [spP1, spP2] := by
  simp only [scoredProducts, demoCatalog, demo_data, List.map, List.filter, matchesFilter,
    List.filterMap, scoreProduct_full_p1, scoreProduct_full_p2, scoreProduct_full_p3,
    Option.map_some', Option.map_none']
  simp [spP1, spP2]

/-- The recommender's output for the §8 scenario profile. -/
theorem getRecs_full_demo :
    get_recommendations demoCatalog profileFull 5 none = .ok ⟨[spP1, spP2], 2⟩ := by
  unfold get_recommendations
  rw [if_neg (by omega)]
  simp only [scoredProducts_full_demo]
  have hsort : rankSort [spP1, spP2] = [spP1, spP2] := by
    simp [rankSort, insertRanked, rankBefore, spP1, spP2]
  rw [hsort]
  rfl

/-- The full `/recommend` run of the §8 scenario request against the
demonstration catalog. -/
theorem runFull :
    recommendHandler mdStandIn "t" demoCatalog [] (some reqFull) =
      (.ok bodyFull, [(mdStandIn (userIdSeed "t" (.jnum 35) (.jnum 25) (.jstr "中")),
        profileFull)]) := by
  simp only [recommendHandler]
  rw [if_neg (by decide)]
  have hA : reqFull.age = some (.jnum 35) := rfl
  have hI : reqFull.annual_income = some (.jnum 25) := rfl
  have hR : reqFull.risk_tolerance = some (.jstr "中") := rfl
  rw [hA, hI, hR]
  simp only []
  rw [if_neg (by norm_num [JVal.isNumeric, JVal.toRat])]
  rw [if_neg (by norm_num [JVal.isNumeric, JVal.toRat])]
  have hrs : riskOf (.jstr "中") = some "中" := by decide
  rw [hrs]
  simp only []
  unfold recommendValid
  simp only []
  rw [buildProfile_reqFull]
  have hTop : reqFull.top_n.getD 5 = 5 := rfl
  have hFc : reqFull.filter_criteria = none := rfl
  rw [hTop, hFc, getRecs_full_demo]
  rfl

/-! ### Claim C1 -/

/-- The request-object conditions on which `recommend_products` answers
with an HTTP 400 (lines 150–190): empty body object, a missing required
field, an age failing `isinstance((int,float))` (booleans included) or
the `[0,120]` range, an income failing the same numeric test or
negative, or a risk tolerance outside the five levels. -/
def requestInvalid (req : RecommendRequest) : Bool :=
  req.isEmpty ||
  match req.age, req.annual_income, req.risk_tolerance with
  | some a, some inc, some rt =>
      (!a.isNumeric || decide (a.toRat < 0) || decide (120 < a.toRat)) ||
      (!inc.isNumeric || decide (inc.toRat < 0)) || (riskOf rt).isNone
  | _, _, _ => true

/-- C1 (amended): whenever the request body fails the boundary checks —
with JSON booleans counting as numeric (`true` = 1, `false` = 0),
because Python's `bool` is a subclass of `int` and so passes
`isinstance(age, (int, float))` — the handler answers with the 400
client error and the recommendation core is never invoked: the profile
registry is left untouched and no recommendation is computed. -/
theorem c1_validation_rejects (md5t : String → String) (ts : String)
    (catalog : List Product) (registry : Registry) (req : RecommendRequest)
    (h : requestInvalid req = true) :
    (recommendHandler md5t ts catalog registry (some req)).1.isClientError = true ∧
    (recommendHandler md5t ts catalog registry (some req)).2 = registry := by
  by_cases hE : req.isEmpty = true
  · simp [recommendHandler, hE, RecommendResponse.isClientError]
  · unfold requestInvalid at h
    rw [Bool.or_eq_true] at h
    rcases h with h | h
    · exact absurd h hE
    · cases hA : req.age with
      | none =>
          simp [recommendHandler, hE, hA, RecommendResponse.isClientError]
      | some a =>
        cases hI : req.annual_income with
        | none =>
            simp [recommendHandler, hE, hA, hI, RecommendResponse.isClientError]
        | some inc =>
          cases hR : req.risk_tolerance with
          | none =>
              simp [recommendHandler, hE, hA, hI, hR, RecommendResponse.isClientError]
          | some rt =>
            rw [hA, hI, hR] at h
            simp only [Bool.or_eq_true, Bool.not_eq_true', decide_eq_true_eq,
              Option.isNone_iff_eq_none] at h
            by_cases hAge : (a.isNumeric = false ∨ a.toRat < 0 ∨ 120 < a.toRat)
            · simp [recommendHandler, hE, hA, hI, hR, hAge,
                RecommendResponse.isClientError]
            · by_cases hInc : (inc.isNumeric = false ∨ inc.toRat < 0)
              · simp [recommendHandler, hE, hA, hI, hR, hAge, hInc,
                  RecommendResponse.isClientError]
              · have hRisk : riskOf rt = none := by tauto
                simp [recommendHandler, hE, hA, hI, hR, hAge, hInc, hRisk,
                  RecommendResponse.isClientError]

/-- C1 as frozen is falsified by `{"age": true, "annual_income": 25,
"risk_tolerance": "中"}`: a JSON boolean is not a number, yet
`isinstance(True, (int, float))` holds in Python (`bool` subclasses
`int`), so the handler accepts the request, stores a profile with age 1
in the registry and returns a success response instead of a 400. -/
theorem c1_counterexample :
    (recommendHandler mdStandIn "t" [] [] (some reqBoolAge)).1.isClientError = false ∧
    (recommendHandler mdStandIn "t" [] [] (some reqBoolAge)).2 ≠ [] ∧
    ((recommendHandler mdStandIn "t" [] [] (some reqBoolAge)).1.okBody.map
      (fun b => b.user_profile.age)) = some 1 := by
  refine ⟨rfl, ?_, rfl⟩
  decide

/-- Concrete instance of `c1_validation_rejects`: a request missing its
`age` field is answered with the 400 client error and leaves the (empty)
registry untouched. -/
theorem c1_witness :
    requestInvalid reqMissing = true ∧
    ((recommendHandler mdStandIn "t" [] [] (some reqMissing)).1.isClientError = true ∧
     (recommendHandler mdStandIn "t" [] [] (some reqMissing)).2 = []) :=
  ⟨rfl, c1_validation_rejects mdStandIn "t" [] [] reqMissing rfl⟩

/-! ### Claim C2 -/

/-- C2: on every successful `/recommend` run, the normalized profile in
the response has `social_security_type` defaulting to 城镇职工,
`expected_retirement_age` defaulting to 60, `investment_amount`
defaulting to exactly half of `annual_income`, and `location` defaulting
to 全国 whenever those request fields are absent; `family_status`,
`health_status` and `liquidity_needs` are carried over exactly, hence
appear iff they were submitted. -/
theorem c2_profile_defaults (md5t : String → String) (ts : String)
    (catalog : List Product) (registry : Registry) (req : RecommendRequest)
    (body : RecommendBody) (reg' : Registry)
    (h : recommendHandler md5t ts catalog registry (some req) = (.ok body, reg')) :
    (req.social_security = none →
      body.user_profile.social_security_type = .jstr "城镇职工") ∧
    (req.retirement_age = none →
      body.user_profile.expected_retirement_age = .jnum 60) ∧
    (req.investment_amount = none →
      body.user_profile.investment_amount =
        .jnum (body.user_profile.annual_income * (1/2))) ∧
    (req.location = none → body.user_profile.location = .jstr "全国") ∧
    body.user_profile.family_status = req.family_status ∧
    body.user_profile.health_status = req.health_status ∧
    body.user_profile.liquidity_needs = req.liquidity_needs := by
  obtain ⟨a, inc, rt, rs, recSet, hA, hI, hR, hrs, _, _, _, _, _, hrec, hbody, hreg⟩ :=
    recommendHandler_ok_inv h
  subst hbody
  refine ⟨fun h1 => ?_, fun h2 => ?_, fun h3 => ?_, fun h4 => ?_, rfl, rfl, rfl⟩ <;>
    simp_all [mkBody, buildProfile]

/-- Concrete instance of `c2_profile_defaults`: the run of a request
carrying only the required fields produces a profile with all four
defaults and without the three no-default optional fields. -/
theorem c2_witness :
    recommendHandler mdStandIn "t" [] [] (some reqMin) =
      (.ok bodyMin, [(mdStandIn (userIdSeed "t" (.jnum 35) (.jnum 25) (.jstr "中")),
        profileMin)]) ∧
    (bodyMin.user_profile.social_security_type = .jstr "城镇职工" ∧
     bodyMin.user_profile.expected_retirement_age = .jnum 60 ∧
     bodyMin.user_profile.investment_amount =
       .jnum (bodyMin.user_profile.annual_income * (1/2)) ∧
     bodyMin.user_profile.location = .jstr "全国" ∧
     bodyMin.user_profile.family_status = none ∧
     bodyMin.user_profile.health_status = none ∧
     bodyMin.user_profile.liquidity_needs = none) := by
  have h := c2_profile_defaults mdStandIn "t" [] []
    reqMin bodyMin [(mdStandIn (userIdSeed "t" (.jnum 35) (.jnum 25) (.jstr "中")),
      profileMin)] rfl
  exact ⟨rfl, h.1 rfl, h.2.1 rfl, h.2.2.1 rfl, h.2.2.2.1 rfl,
    h.2.2.2.2.1, h.2.2.2.2.2.1, h.2.2.2.2.2.2⟩

/-! ### Claim C3 -/

/-- C3: the recommend operation truncates to `top_n` with default 5 when
the field is omitted; `top_n = 0` yields an empty recommendations list
on a success response (not an error); a negative `top_n` never produces
a success response (the recommender rejects it as invalid input and the
boundary surfaces the failure to the caller as an error response); and
every success response carries at most `top_n` recommendations. -/
theorem c3_top_n_truncation (md5t : String → String) (ts : String)
    (catalog : List Product) (registry : Registry) (req : RecommendRequest) :
    (req.top_n = none → ∀ body reg',
        recommendHandler md5t ts catalog registry (some req) = (.ok body, reg') →
        body.recommendations.length ≤ 5) ∧
    (req.top_n = some 0 → ∀ body reg',
        recommendHandler md5t ts catalog registry (some req) = (.ok body, reg') →
        body.recommendations = []) ∧
    (∀ t : ℤ, req.top_n = some t → t < 0 → ∀ body reg',
        recommendHandler md5t ts catalog registry (some req) ≠ (.ok body, reg')) ∧
    (∀ body reg',
        recommendHandler md5t ts catalog registry (some req) = (.ok body, reg') →
        (body.recommendations.length : ℤ) ≤ req.top_n.getD 5) := by
  refine ⟨?_, ?_, ?_, ?_⟩
  · intro hTop body reg' h
    obtain ⟨a, inc, rt, rs, recSet, _, _, _, _, _, _, _, _, _, hrec, hbody, _⟩ :=
      recommendHandler_ok_inv h
    obtain ⟨hpos, hrecs, -⟩ := getRecs_ok hrec
    subst hbody
    simp only [mkBody, List.length_map]
    rw [hrecs, hTop]
    simp [List.length_take_le]
  · intro hTop body reg' h
    obtain ⟨a, inc, rt, rs, recSet, _, _, _, _, _, _, _, _, _, hrec, hbody, _⟩ :=
      recommendHandler_ok_inv h
    obtain ⟨hpos, hrecs, -⟩ := getRecs_ok hrec
    subst hbody
    simp only [mkBody, List.map_eq_nil_iff]
    rw [hrecs, hTop]
    rfl
  · intro t hTop hneg body reg' h
    obtain ⟨a, inc, rt, rs, recSet, _, _, _, _, _, _, _, _, _, hrec, hbody, _⟩ :=
      recommendHandler_ok_inv h
    obtain ⟨hpos, -, -⟩ := getRecs_ok hrec
    rw [hTop] at hpos
    simp at hpos
    omega
  · intro body reg' h
    obtain ⟨a, inc, rt, rs, recSet, _, _, _, _, _, _, _, _, _, hrec, hbody, _⟩ :=
      recommendHandler_ok_inv h
    obtain ⟨hpos, hrecs, -⟩ := getRecs_ok hrec
    subst hbody
    simp only [mkBody, List.length_map]
    rw [hrecs]
    have := List.length_take_le (req.top_n.getD 5).toNat
      (rankSort (scoredProducts catalog
        (buildProfile a inc rs req) req.filter_criteria))
    omega

/-- Concrete instance of `c3_top_n_truncation`: the run of `reqTop0`
(`top_n = 0`) succeeds with an empty recommendations list. -/
theorem c3_witness :
    recommendHandler mdStandIn "t" [] [] (some reqTop0) =
      (.ok bodyTop0, [(mdStandIn (userIdSeed "t" (.jnum 35) (.jnum 25) (.jstr "中")),
        profileMin)]) ∧
    bodyTop0.recommendations = [] :=
  ⟨rfl, (c3_top_n_truncation mdStandIn "t" [] [] reqTop0).2.1 rfl bodyTop0
    [(mdStandIn (userIdSeed "t" (.jnum 35) (.jnum 25) (.jstr "中")), profileMin)] rfl⟩

/-! ### Claim C4 -/

/-- C4: a product whose `age_range` does not contain the profile's age
never appears in the recommendations, regardless of its credit on the
other factors — the age gate excludes it from ranking entirely. -/
theorem c4_age_gate (catalog : List Product) (u : UserProfile) (top_n : ℤ)
    (fc : Option FilterCriteria) (p : Product) (rs : RecommendationSet)
    (hAge : u.age < p.min_age ∨ p.max_age < u.age)
    (hOk : get_recommendations catalog u top_n fc = .ok rs) :
    ∀ sp ∈ rs.recommendations, sp.product ≠ p := by
  intro sp hsp hcontra
  obtain ⟨-, hrecs, -⟩ := getRecs_ok hOk
  rw [hrecs] at hsp
  have hmem : sp ∈ scoredProducts catalog u fc :=
    mem_rankSort.mp (List.take_subset _ _ hsp)
  obtain ⟨-, hscore⟩ := scoredProducts_product_mem hmem
  rw [hcontra] at hscore
  unfold scoreProduct at hscore
  rw [if_pos hAge] at hscore
  exact absurd hscore (by simp)

/-- Concrete instance of `c4_age_gate`: for the §8 scenario profile
(age 35), product P003 (age range 50–75) is gate-excluded, so the
recommendation that is returned is not P003. -/
theorem c4_witness :
    get_recommendations demoCatalog profileFull 5 none = .ok ⟨[spP1, spP2], 2⟩ ∧
    spP1 ∈ (⟨[spP1, spP2], 2⟩ : RecommendationSet).recommendations ∧
    spP1.product ≠ normalizeRaw rawP3 :=
  ⟨getRecs_full_demo, by simp,
    c4_age_gate demoCatalog profileFull 5 none (normalizeRaw rawP3) ⟨[spP1, spP2], 2⟩
      (Or.inl (by decide)) getRecs_full_demo spP1 (by simp)⟩

/-! ### Claim C5 -/

/-- C5: the product-detail lookup answers 404 (with `success=false`)
exactly when no catalog product has the requested id, and answers the
product with `success=true` when the exact lookup finds it — never a
crash and never an empty-but-success response. -/
theorem c5_product_detail (catalog : List Product) (pid : String) :
    ((∀ p ∈ catalog, p.product_id ≠ pid) →
      productDetailHandler catalog pid = .notFound ("未找到产品ID: " ++ pid)) ∧
    (∀ p, get_product_details catalog pid = some p →
      productDetailHandler catalog pid = .ok p ∧ p.product_id = pid ∧ p ∈ catalog) := by
  constructor
  · intro hnone
    have hfind : get_product_details catalog pid = none := by
      unfold get_product_details
      rw [List.find?_eq_none]
      intro p hp
      simpa using hnone p hp
    unfold productDetailHandler
    rw [hfind]
  · intro p hp
    refine ⟨?_, ?_, ?_⟩
    · unfold productDetailHandler
      rw [hp]
    · have := List.find?_some hp
      simpa using this
    · exact List.mem_of_find?_eq_some hp

/-- Concrete instance of `c5_product_detail`: id "PX" is absent from the
demonstration catalog and yields the 404 signal, while id "P001" is
found and returned with success. -/
theorem c5_witness :
    productDetailHandler demoCatalog "PX" = .notFound ("未找到产品ID: " ++ "PX") ∧
    (productDetailHandler demoCatalog "P001" = .ok (normalizeRaw rawP1) ∧
     (normalizeRaw rawP1).product_id = "P001" ∧ normalizeRaw rawP1 ∈ demoCatalog) :=
  ⟨(c5_product_detail demoCatalog "PX").1 (by decide),
   (c5_product_detail demoCatalog "P001").2 (normalizeRaw rawP1) rfl⟩

/-! ### Claim C6 -/

/-- C6 as frozen is falsified by a negative `limit`: searching the
demonstration catalog for 养老 finds two products, and `limit = -1`
makes `results_df.head(limit)` return all but the last match — one
result, which is not `≤ -1`.  The handler puts no sign restriction on
the `limit` query parameter. -/
theorem c6_counterexample :
    searchHandler demoCatalog (some "养老") (some (-1)) =
      .ok "养老" 1 [normalizeRaw rawP1] ∧
    ¬ ((1 : ℤ) ≤ -1) :=
  ⟨by decide, by decide⟩

/-- C6 (amended): an absent or empty keyword is rejected with the 400
response; when a keyword is present, the number of results is at most
`limit` for every *non-negative* `limit` (default 10 when the parameter
is omitted) — a negative `limit` instead drops the last `|limit|`
matches, so the cap only holds for non-negative values. -/
theorem c6_keyword_and_limit (catalog : List Product) (keyword : Option String)
    (limit : Option ℤ) :
    ((keyword = none ∨ keyword = some "") →
      searchHandler catalog keyword limit = .badRequest "请提供搜索关键词") ∧
    (∀ l : ℤ, limit = some l → 0 ≤ l → ∀ k c res,
      searchHandler catalog keyword limit = .ok k c res → (c : ℤ) ≤ l) ∧
    (limit = none → ∀ k c res,
      searchHandler catalog keyword limit = .ok k c res → c ≤ 10) := by
  refine ⟨?_, ?_, ?_⟩
  · intro hk
    rcases hk with hk | hk <;> subst hk <;> rfl
  · intro l hl hpos k c res h
    subst hl
    simp only [searchHandler] at h
    split at h
    · exact absurd h (by simp)
    · simp only [SearchResponse.ok.injEq] at h
      obtain ⟨-, hc, -⟩ := h
      subst hc
      simp only [Option.getD_some]
      unfold pdHead
      rw [if_pos (by simpa using hpos)]
      have := List.length_take_le l.toNat (search_products catalog (keyword.getD ""))
      omega
  · intro hl k c res h
    subst hl
    simp only [searchHandler] at h
    split at h
    · exact absurd h (by simp)
    · simp only [SearchResponse.ok.injEq] at h
      obtain ⟨-, hc, -⟩ := h
      subst hc
      simp only [Option.getD_none]
      unfold pdHead
      rw [if_pos (by norm_num)]
      have := List.length_take_le (Int.toNat 10) (search_products catalog (keyword.getD ""))
      omega

/-- Concrete instance of `c6_keyword_and_limit`: a missing keyword is a
400, and a search for 养老 with `limit = 1` returns one result, within
the cap. -/
theorem c6_witness :
    searchHandler demoCatalog none (some 1) = .badRequest "请提供搜索关键词" ∧
    (searchHandler demoCatalog (some "养老") (some 1) = .ok "养老" 1 [normalizeRaw rawP1] ∧
     ((1 : ℕ) : ℤ) ≤ 1) :=
  ⟨(c6_keyword_and_limit demoCatalog none (some 1)).1 (Or.inl rfl),
   by
    have h := (c6_keyword_and_limit demoCatalog (some "养老") (some 1)).2.1 1 rfl
      (by norm_num) "养老" 1 [normalizeRaw rawP1]
    exact ⟨by decide, h (by decide)⟩⟩

/-! ### Claim C7 -/

/-- C7: when no data source loads (`analyzer.df is None`),
`initialize_system` falls back to the demonstration catalog and finishes
holding a non-empty processed catalog, so the system stays queryable. -/
theorem c7_demo_fallback (load : Option (List RawProduct)) (h : load = none) :
    (initialize_system load).processed_df = some demoCatalog ∧ demoCatalog ≠ [] := by
  subst h
  exact ⟨rfl, by simp [demoCatalog, demo_data]⟩

/-- Concrete instance of `c7_demo_fallback` at the failed-load state. -/
theorem c7_witness :
    (initialize_system none).processed_df = some demoCatalog ∧ demoCatalog ≠ [] :=
  c7_demo_fallback none rfl

/-! ### Claim C8 -/

/-- C8: in every successful `/recommend` response, the top-level
`recommendation_count` equals the number of items in `recommendations`,
and each item's `match_percentage` is its `match_score` rendered with a
trailing percent sign. -/
theorem c8_formatting (md5t : String → String) (ts : String)
    (catalog : List Product) (registry : Registry) (req : RecommendRequest)
    (body : RecommendBody) (reg' : Registry)
    (h : recommendHandler md5t ts catalog registry (some req) = (.ok body, reg')) :
    body.recommendation_count = body.recommendations.length ∧
    ∀ fr ∈ body.recommendations,
      fr.match_percentage = toString fr.match_score ++ "%" := by
  obtain ⟨a, inc, rt, rs, recSet, -, -, -, -, -, -, -, -, -, -, hbody, -⟩ :=
    recommendHandler_ok_inv h
  subst hbody
  constructor
  · simp [mkBody]
  · intro fr hfr
    simp only [mkBody, List.mem_map] at hfr
    obtain ⟨sp, hsp, hfr⟩ := hfr
    subst hfr
    rfl

/-- Concrete instance of `c8_formatting` on the §8 scenario run: two
items, count 2, and the top item is rendered "100%". -/
theorem c8_witness :
    recommendHandler mdStandIn "t" demoCatalog [] (some reqFull) =
      (.ok bodyFull, [(mdStandIn (userIdSeed "t" (.jnum 35) (.jnum 25) (.jstr "中")),
        profileFull)]) ∧
    (bodyFull.recommendation_count = bodyFull.recommendations.length ∧
     (formatRec spP1).match_percentage = toString (formatRec spP1).match_score ++ "%") := by
  have h := c8_formatting mdStandIn "t" demoCatalog []
    reqFull bodyFull
    [(mdStandIn (userIdSeed "t" (.jnum 35) (.jnum 25) (.jstr "中")), profileFull)] runFull
  exact ⟨runFull, h.1, h.2 (formatRec spP1) (by simp [bodyFull, mkBody])⟩

/-! ### Claim C9 -/

/-- C9 as frozen is falsified by two submissions sharing one timestamp
and the same required fields but different optional fields: the user-id
seed `f"{ts}{age}{income}{risk_tolerance}"` is identical, so the
md5-derived key is identical whatever the hash function, and the dict
assignment `registry[key] = profile` replaces the 北京 profile with the
上海 one — the registry still holds a single entry and the stored
profile has changed. -/
theorem c9_counterexample :
    recommendHandler mdStandIn "ts1" [] [] (some reqLocBJ) = (.ok bodyBJ, reg1C9) ∧
    recommendHandler mdStandIn "ts1" [] reg1C9 (some reqLocSH) = (.ok bodySH, reg2C9) ∧
    reg1C9.length = 1 ∧ reg2C9.length = 1 ∧
    reg1C9 = [(keyC9, profileBJ)] ∧ reg2C9 = [(keyC9, profileSH)] ∧
    profileBJ ≠ profileSH := by
  refine ⟨rfl, ?_, rfl, rfl, rfl, rfl, ?_⟩
  · show recommendHandler mdStandIn "ts1" [] [(keyC9, profileBJ)] (some reqLocSH) =
      (.ok bodySH, [(keyC9, profileSH)])
    rfl
  · intro hcontra
    have := congrArg UserProfile.location hcontra
    simp [profileBJ, profileSH, buildProfile, reqLocBJ, reqLocSH, reqMin] at this

/-- C9 (amended): the profile key is a deterministic function of the
timestamp and the three required raw values only; two successful
submissions agreeing on those share one key, under which the second
stores its profile — the registry does not grow, and the shared key now
maps to the second profile (update-in-place, not a fresh key). -/
theorem c9_key_reuse (md5t : String → String) (ts : String) (catalog : List Product)
    (reg : Registry) (req1 req2 : RecommendRequest) (b1 b2 : RecommendBody)
    (r1 r2 : Registry)
    (hA : req1.age = req2.age) (hI : req1.annual_income = req2.annual_income)
    (hR : req1.risk_tolerance = req2.risk_tolerance)
    (h1 : recommendHandler md5t ts catalog reg (some req1) = (.ok b1, r1))
    (h2 : recommendHandler md5t ts catalog r1 (some req2) = (.ok b2, r2)) :
    r2.length = r1.length ∧
    ∃ k, registryFind r1 k = some b1.user_profile ∧
      registryFind r2 k = some b2.user_profile := by
  obtain ⟨a1, i1, t1, s1, rs1, hA1, hI1, hR1, -, -, -, -, -, -, -, hb1, hr1⟩ :=
    recommendHandler_ok_inv h1
  obtain ⟨a2, i2, t2, s2, rs2, hA2, hI2, hR2, -, -, -, -, -, -, -, hb2, hr2⟩ :=
    recommendHandler_ok_inv h2
  have hae : a1 = a2 := by
    rw [hA1, hA2] at hA
    exact Option.some.inj hA
  have hie : i1 = i2 := by
    rw [hI1, hI2] at hI
    exact Option.some.inj hI
  have hte : t1 = t2 := by
    rw [hR1, hR2] at hR
    exact Option.some.inj hR
  subst hae hie hte
  subst hb1 hb2 hr1 hr2
  constructor
  · exact length_registryAdd_of_hasKey _ _ _ (registryHasKey_add_self _ _ _)
  · exact ⟨md5t (userIdSeed ts a1 i1 t1), registryFind_add _ _ _, registryFind_add _ _ _⟩

/-- Concrete instance of `c9_key_reuse` on the counterexample's pair of
runs. -/
theorem c9_witness :
    (recommendHandler mdStandIn "ts1" [] [] (some reqLocBJ) = (.ok bodyBJ, reg1C9) ∧
     recommendHandler mdStandIn "ts1" [] reg1C9 (some reqLocSH) = (.ok bodySH, reg2C9)) ∧
    (reg2C9.length = reg1C9.length ∧
     ∃ k, registryFind reg1C9 k = some bodyBJ.user_profile ∧
       registryFind reg2C9 k = some bodySH.user_profile) := by
  have hrun2 : recommendHandler mdStandIn "ts1" [] reg1C9 (some reqLocSH) =
      (.ok bodySH, reg2C9) := by
    show recommendHandler mdStandIn "ts1" [] [(keyC9, profileBJ)] (some reqLocSH) =
      (.ok bodySH, [(keyC9, profileSH)])
    rfl
  exact ⟨⟨rfl, hrun2⟩,
    c9_key_reuse mdStandIn "ts1" [] [] reqLocBJ reqLocSH bodyBJ bodySH reg1C9 reg2C9
      rfl rfl rfl rfl hrun2⟩

/-! ### Claim C10 -/

/-- C10: the age stored in the normalized profile is the submitted age
truncated via `int()` — equal to its floor, the validated age being
non-negative — so a fractional age is floored before scoring and can
differ from the submitted value. -/
theorem c10_age_truncation (md5t : String → String) (ts : String)
    (catalog : List Product) (registry : Registry) (req : RecommendRequest)
    (body : RecommendBody) (reg' : Registry) (a : JVal)
    (h : recommendHandler md5t ts catalog registry (some req) = (.ok body, reg'))
    (hA : req.age = some a) :
    body.user_profile.age = a.toRat.floor := by
  obtain ⟨a', inc, rt, rs, recSet, hA', -, -, -, -, -, -, -, -, -, hbody, -⟩ :=
    recommendHandler_ok_inv h
  rw [hA'] at hA
  cases Option.some.inj hA
  subst hbody
  rfl

/-- Concrete instance of `c10_age_truncation`: submitting age 35.9
(which passes the `[0,120]` validation) stores age 35 — a value
different from the one submitted. -/
theorem runFrac :
    recommendHandler mdStandIn "t" [] [] (some reqFrac) =
      (.ok bodyFrac, [(mdStandIn (userIdSeed "t" (.jnum (359/10)) (.jnum 25) (.jstr "中")),
        profileFrac)]) := by
  simp only [recommendHandler]
  rw [if_neg (by decide)]
  have hA : reqFrac.age = some (.jnum (359/10)) := rfl
  have hI : reqFrac.annual_income = some (.jnum 25) := rfl
  have hR : reqFrac.risk_tolerance = some (.jstr "中") := rfl
  rw [hA, hI, hR]
  simp only []
  rw [if_neg (by norm_num [JVal.isNumeric, JVal.toRat])]
  rw [if_neg (by norm_num [JVal.isNumeric, JVal.toRat])]
  have hrs : riskOf (.jstr "中") = some "中" := by decide
  rw [hrs]
  simp only []
  unfold recommendValid
  simp only []
  have hrec : get_recommendations [] (buildProfile (.jnum (359/10)) (.jnum 25) "中" reqFrac)
      (reqFrac.top_n.getD 5) reqFrac.filter_criteria = .ok ⟨[], 0⟩ := by
    unfold get_recommendations
    rw [if_neg (by decide)]
    rfl
  rw [hrec]
  rfl

theorem c10_witness :
    recommendHandler mdStandIn "t" [] [] (some reqFrac) =
      (.ok bodyFrac, [(mdStandIn (userIdSeed "t" (.jnum (359/10)) (.jnum 25) (.jstr "中")),
        profileFrac)]) ∧
    bodyFrac.user_profile.age = (JVal.toRat (.jnum (359/10))).floor ∧
    bodyFrac.user_profile.age = 35 ∧
    ((bodyFrac.user_profile.age : ℚ) ≠ 359/10) := by
  have h := c10_age_truncation mdStandIn "t" [] [] reqFrac bodyFrac
    [(mdStandIn (userIdSeed "t" (.jnum (359/10)) (.jnum 25) (.jstr "中")), profileFrac)]
    (.jnum (359/10)) runFrac rfl
  have h35 : bodyFrac.user_profile.age = 35 := by
    rw [h]
    with_unfolding_all rfl
  refine ⟨runFrac, h, h35, ?_⟩
  rw [h35]
  norm_num

end Pension
